import Mathlib

/-!
Shallow embedding of the Prism program (src/prism/programs/prism/src/lib.rs),
an Anchor/Solana program managing root identities and disposable context
identities with spending limits, revocation and privacy commitments.

Machine integers are modelled as `Nat` with explicit bounds: `u64` checked
arithmetic tests against `2 ^ 64`, the `u16` context counter against `2 ^ 16`.
Fallible instruction handlers return `Except TxError`; the Rust
`checked_add(1).unwrap()` panic is modelled as the distinguished failure
`TxError.abort` (a Solana panic aborts the transaction, committing nothing),
as opposed to `TxError.program e` which carries a named `PrismError`.
Account timestamps (`Clock::get()`) and PDA bumps are passed as parameters.
-/

namespace Prism

/-- Abstract 32-byte public key (Solana `Pubkey`), modelled by a natural
number; the program only compares keys for equality. -/
structure Pubkey where
  val : Nat
deriving DecidableEq, Repr

/-- Rust `Pubkey::default()`, the all-zero public key used as the sentinel
linkage value of encrypted contexts. -/
def Pubkey.default : Pubkey := ⟨0⟩

/-- Abstract 32-byte value (`[u8; 32]`), used for hashes and commitments;
the program only compares such values for equality. -/
abbrev Bytes32 := Nat

/-- Modulus of the 64-bit unsigned integers used by spending fields. -/
def U64_MOD : Nat := 2 ^ 64

/-- Modulus of the 16-bit unsigned context counter. -/
def U16_MOD : Nat := 2 ^ 16

/-- Rust `u64::checked_add`: `some` of the sum when it fits in 64 bits,
`none` on overflow. -/
def checked_add_u64 (a b : Nat) : Option Nat :=
  if a + b < U64_MOD then some (a + b) else none

/-- Rust `u16::checked_add`: `some` of the sum when it fits in 16 bits,
`none` on overflow. -/
def checked_add_u16 (a b : Nat) : Option Nat :=
  if a + b < U16_MOD then some (a + b) else none

/-- The program error enum `PrismError` of lib.rs. -/
inductive PrismError where
  | Unauthorized
  | ContextMismatch
  | ContextAlreadyRevoked
  | ContextRevoked
  | ExceedsTransactionLimit
  | SpendingOverflow
  | InvalidPrivacyLevel
  | InvalidContextType
  | InvalidRootHash
deriving DecidableEq, Repr

/-- How an instruction can fail: with a named program error (`require!` /
`ok_or`), with an Anchor seeds-constraint violation during account
validation, or by aborting through a Rust panic (`unwrap()` on `None`),
which on Solana rolls the whole transaction back without a named error. -/
inductive TxError where
  | program (e : PrismError)
  | constraintSeeds
  | abort
deriving DecidableEq, Repr

/-- True exactly when the failure carries a named `PrismError` (as opposed
to a seeds violation or a panic/abort). -/
def TxError.isNamedError : TxError → Bool
  | .program _ => true
  | _ => false

/-- The `RootIdentity` account of lib.rs. -/
structure RootIdentity where
  owner : Pubkey
  created_at : Int
  privacy_level : Nat
  context_count : Nat
  bump : Nat
deriving DecidableEq, Repr

/-- The `ContextIdentity` account of lib.rs. -/
structure ContextIdentity where
  root_identity : Pubkey
  root_identity_hash : Option Bytes32
  encryption_commitment : Option Bytes32
  context_type : Nat
  created_at : Int
  max_per_transaction : Nat
  total_spent : Nat
  revoked : Bool
  context_index : Nat
  bump : Nat
deriving DecidableEq, Repr

/-- A stored account: its on-chain address together with its data
(Anchor's `Account` wrapper, whose `key()` the handlers read). -/
structure Account (α : Type) where
  key : Pubkey
  data : α
deriving DecidableEq, Repr

/-- Solana SHA-256 over the 32 bytes of a key (`anchor_lang::solana_program::hash::hash`).
The hash primitive is host code external to this repository; the program uses
it only as a deterministic function compared for equality, so it is modelled
as the identity embedding of the key into `Bytes32`. -/
def solanaHash (x : Nat) : Bytes32 := x

/-- lib.rs `hash_root_identity`: hash of the root PDA address bytes. -/
def hash_root_identity (root_pubkey : Pubkey) : Bytes32 :=
  solanaHash root_pubkey.val

/-- Modelled from the spec: the host PDA derivation for a root identity,
seeds `["root", owner]`. Deterministic and collision-resistant; derived
addresses are never the all-zero key. Root addresses are odd, context
addresses even and nonzero, so the two kinds never collide. -/
def derive_root_address (owner : Pubkey) : Pubkey :=
  ⟨2 * owner.val + 1⟩

/-- Modelled from the spec: the host PDA derivation for a context identity,
seeds `["context", root_address, context_index]`, injective in the pair via
`Nat.pair` and disjoint from root addresses. -/
def derive_context_address (rootAddr : Pubkey) (context_index : Nat) : Pubkey :=
  ⟨2 * Nat.pair rootAddr.val context_index + 2⟩

/-- Commit an instruction result against the prior account state: a
successful handler writes its output, any failure leaves the stored account
unchanged (Solana transactions are atomic). -/
def commit (ctx : ContextIdentity) (r : Except TxError ContextIdentity) : ContextIdentity :=
  match r with
  | .ok c => c
  | .error _ => ctx

/-- Handler `create_root_identity` of lib.rs. -/
def create_root_identity (userKey : Pubkey) (privacy_level : Nat) (now : Int)
    (bump : Nat) : Except TxError RootIdentity :=
  if ¬ (privacy_level ≤ 4) then .error (.program .InvalidPrivacyLevel)
  else .ok { owner := userKey, created_at := now, privacy_level := privacy_level,
             context_count := 0, bump := bump }

/-- Handler `create_context` of lib.rs: writes a plain-linkage context at
index `root.context_count` and increments the counter with
`checked_add(1).unwrap()` (the `unwrap` panic is `TxError.abort`). -/
def create_context (root : RootIdentity) (context_type max_per_transaction : Nat)
    (rootKey : Pubkey) (now : Int) (bump : Nat) :
    Except TxError (ContextIdentity × RootIdentity) :=
  if ¬ (context_type ≤ 5) then .error (.program .InvalidContextType)
  else
    let context : ContextIdentity :=
      { root_identity := rootKey
        root_identity_hash := none
        encryption_commitment := none
        context_type := context_type
        created_at := now
        max_per_transaction := max_per_transaction
        total_spent := 0
        revoked := false
        context_index := root.context_count
        bump := bump }
    match checked_add_u16 root.context_count 1 with
    | some c => .ok (context, { root with context_count := c })
    | none => .error .abort

/-- Handler `create_context_encrypted` of lib.rs: checks the supplied hash
against `hash_root_identity(root.key())`, stores the zero-pubkey sentinel as
linkage together with the hash and the commitment, and increments the counter
with `checked_add(1).unwrap()`. -/
def create_context_encrypted (root : RootIdentity)
    (context_type max_per_transaction : Nat)
    (root_identity_hash encryption_commitment : Bytes32)
    (rootKey : Pubkey) (now : Int) (bump : Nat) :
    Except TxError (ContextIdentity × RootIdentity) :=
  if ¬ (context_type ≤ 5) then .error (.program .InvalidContextType)
  else if ¬ (hash_root_identity rootKey = root_identity_hash) then
    .error (.program .InvalidRootHash)
  else
    let context : ContextIdentity :=
      { root_identity := Pubkey.default
        root_identity_hash := some root_identity_hash
        encryption_commitment := some encryption_commitment
        context_type := context_type
        created_at := now
        max_per_transaction := max_per_transaction
        total_spent := 0
        revoked := false
        context_index := root.context_count
        bump := bump }
    match checked_add_u16 root.context_count 1 with
    | some c => .ok (context, { root with context_count := c })
    | none => .error .abort

/-- Handler `verify_commitment` of lib.rs: read-only, always returns
`Ok(bool)`; true exactly when a commitment is stored, it equals the supplied
one, and the binding key equals the context account's own address. -/
def verify_commitment (context : ContextIdentity) (contextKey : Pubkey)
    (commitment : Bytes32) (binding_key : Pubkey) : Except TxError Bool :=
  match context.encryption_commitment with
  | some stored => .ok (decide (stored = commitment) && decide (binding_key = contextKey))
  | none => .ok false

/-- Handler `revoke_context` of lib.rs (the body after account validation). -/
def revoke_context (context : ContextIdentity) : Except TxError ContextIdentity :=
  if context.revoked then .error (.program .ContextAlreadyRevoked)
  else .ok { context with revoked := true }

/-- Handler `check_spending_limit` of lib.rs: read-only. -/
def check_spending_limit (context : ContextIdentity) (amount : Nat) :
    Except TxError Unit :=
  if context.revoked then .error (.program .ContextRevoked)
  else if ¬ (amount ≤ context.max_per_transaction) then
    .error (.program .ExceedsTransactionLimit)
  else .ok ()

/-- Handler `record_spending` of lib.rs (the body after account validation):
revocation check, per-transaction limit check, then checked accumulation
(`checked_add` with `ok_or(SpendingOverflow)`). -/
def record_spending (context : ContextIdentity) (amount : Nat) :
    Except TxError ContextIdentity :=
  if context.revoked then .error (.program .ContextRevoked)
  else if ¬ (amount ≤ context.max_per_transaction) then
    .error (.program .ExceedsTransactionLimit)
  else
    match checked_add_u64 context.total_spent amount with
    | some t => .ok { context with total_spent := t }
    | none => .error (.program .SpendingOverflow)

/-- Handler `update_privacy_level` of lib.rs. -/
def update_privacy_level (root : RootIdentity) (new_privacy_level : Nat) :
    Except TxError RootIdentity :=
  if ¬ (new_privacy_level ≤ 4) then .error (.program .InvalidPrivacyLevel)
  else .ok { root with privacy_level := new_privacy_level }

/-- The full `RevokeContext` instruction: Anchor account validation from the
`#[derive(Accounts)] RevokeContext` struct (root PDA seeds, the
`root_identity.owner == user.key()` constraint raising `Unauthorized`, the
context PDA seeds, the `context_identity.root_identity == root_identity.key()`
constraint raising `ContextMismatch`), then the `revoke_context` handler. -/
def revoke_context_instr (user : Pubkey) (root : Account RootIdentity)
    (context : Account ContextIdentity) : Except TxError ContextIdentity :=
  if ¬ (root.key = derive_root_address user) then .error .constraintSeeds
  else if ¬ (root.data.owner = user) then .error (.program .Unauthorized)
  else if ¬ (context.key = derive_context_address root.key context.data.context_index) then
    .error .constraintSeeds
  else if ¬ (context.data.root_identity = root.key) then
    .error (.program .ContextMismatch)
  else revoke_context context.data

/-- The full `RecordSpending` instruction: Anchor account validation from the
`#[derive(Accounts)] RecordSpending` struct (same seeds, `Unauthorized` and
`ContextMismatch` constraints as revocation), then the `record_spending`
handler. -/
def record_spending_instr (user : Pubkey) (root : Account RootIdentity)
    (context : Account ContextIdentity) (amount : Nat) :
    Except TxError ContextIdentity :=
  if ¬ (root.key = derive_root_address user) then .error .constraintSeeds
  else if ¬ (root.data.owner = user) then .error (.program .Unauthorized)
  else if ¬ (context.key = derive_context_address root.key context.data.context_index) then
    .error .constraintSeeds
  else if ¬ (context.data.root_identity = root.key) then
    .error (.program .ContextMismatch)
  else record_spending context.data amount

/-- Arguments of one context-creation call: either the plain
`create_context` or `create_context_encrypted` with its extra hash and
commitment arguments. -/
inductive CreateArgs where
  | plain (context_type max_per_transaction : Nat)
  | encrypted (context_type max_per_transaction : Nat)
      (root_identity_hash encryption_commitment : Bytes32)
deriving DecidableEq, Repr

/-- Dispatch one creation call to the matching handler. -/
def create_dispatch (root : RootIdentity) (a : CreateArgs) (rootKey : Pubkey)
    (now : Int) (bump : Nat) : Except TxError (ContextIdentity × RootIdentity) :=
  match a with
  | .plain t m => create_context root t m rootKey now bump
  | .encrypted t m h c => create_context_encrypted root t m h c rootKey now bump

/-- Run a sequence of creation calls against one root; each list element
carries the call's arguments, timestamp and bump. Returns the list of
assigned context indices in call order and the final root state, or `none`
as soon as one call fails (a failed call is excluded from a sequence of
successful creations). -/
def runCreates (root : RootIdentity) (rootKey : Pubkey) :
    List (CreateArgs × Int × Nat) → Option (List Nat × RootIdentity)
  | [] => some ([], root)
  | (a, now, b) :: rest =>
    match create_dispatch root a rootKey now b with
    | .ok (ctx, root1) =>
      match runCreates root1 rootKey rest with
      | some (idxs, rfin) => some (ctx.context_index :: idxs, rfin)
      | none => none
    | .error _ => none

/-- One program operation addressed at an existing context record: revoke,
record spending, the read-only limit check, or the read-only commitment
verification. (The creation instructions `init` fresh records and the
root-only instructions never touch a context record.) -/
inductive ContextOp where
  | revoke
  | record (amount : Nat)
  | check (amount : Nat)
  | verify (contextKey : Pubkey) (commitment : Bytes32) (binding_key : Pubkey)
deriving DecidableEq, Repr

/-- The context state stored after one operation: a successful mutation
commits its write, a failed or read-only operation leaves the record as it
was. -/
def applyContextOp (ctx : ContextIdentity) : ContextOp → ContextIdentity
  | .revoke => commit ctx (revoke_context ctx)
  | .record a => commit ctx (record_spending ctx a)
  | .check _ => ctx
  | .verify _ _ _ => ctx

/-- The context state after a sequence of operations. -/
def runContextOps (ctx : ContextIdentity) : List ContextOp → ContextIdentity
  | [] => ctx
  | op :: rest => runContextOps (applyContextOp ctx op) rest

/-- A sample plain-linkage context: limit 1000 per transaction, nothing spent,
not revoked (the scenario of spec section 8). -/
def exampleCtx : ContextIdentity :=
  { root_identity := ⟨11⟩
    root_identity_hash := none
    encryption_commitment := none
    context_type := 0
    created_at := 0
    max_per_transaction := 1000
    total_spent := 0
    revoked := false
    context_index := 0
    bump := 255 }

/-- A root whose 16-bit context counter sits at its maximum value 65535. -/
def rootAtMax : RootIdentity :=
  { owner := ⟨5⟩
    created_at := 0
    privacy_level := 2
    context_count := 65535
    bump := 254 }

/-- A sample signing user. -/
def demoUser : Pubkey := ⟨5⟩

/-- The PDA address of the sample user's root (equals `⟨11⟩`). -/
def demoRootKey : Pubkey := derive_root_address demoUser

/-- The sample user's root identity account data. -/
def demoRoot : RootIdentity :=
  { owner := demoUser
    created_at := 0
    privacy_level := 2
    context_count := 1
    bump := 254 }

/-- A sample encrypted-linkage context of `demoRoot`: the stored
`root_identity` is the zero-pubkey sentinel, the hash and commitment are
populated. -/
def demoEncCtx : ContextIdentity :=
  { root_identity := Pubkey.default
    root_identity_hash := some (hash_root_identity demoRootKey)
    encryption_commitment := some 7
    context_type := 0
    created_at := 0
    max_per_transaction := 1000
    total_spent := 0
    revoked := false
    context_index := 0
    bump := 255 }

/-- The PDA address of a context of `demoRoot` at index 0. -/
def demoCtxKey : Pubkey := derive_context_address demoRootKey 0

/-- A freshly created root: counter at 0. -/
def freshRoot : RootIdentity :=
  { owner := demoUser
    created_at := 0
    privacy_level := 2
    context_count := 0
    bump := 254 }

/-- A sample sequence of two plain creation calls. -/
def demoOps : List (CreateArgs × Int × Nat) :=
  [(CreateArgs.plain 0 1000, 0, 255), (CreateArgs.plain 1 50, 0, 255)]

-- ============================================================================
-- Helper lemmas
-- ============================================================================

/-- Closed form of the `record_spending` handler. -/
theorem record_spending_eq (ctx : ContextIdentity) (amount : Nat) :
    record_spending ctx amount =
      if ctx.revoked then .error (.program .ContextRevoked)
      else if ¬ (amount ≤ ctx.max_per_transaction) then
        .error (.program .ExceedsTransactionLimit)
      else if ctx.total_spent + amount < U64_MOD then
        .ok { ctx with total_spent := ctx.total_spent + amount }
      else .error (.program .SpendingOverflow) := by
  by_cases h1 : ctx.revoked <;>
    by_cases h2 : amount ≤ ctx.max_per_transaction <;>
    by_cases h3 : ctx.total_spent + amount < U64_MOD <;>
    simp [record_spending, checked_add_u64, h1, h2, h3]

-- ============================================================================
-- Claims
-- ============================================================================

/-- Closed form of the `create_context` handler. -/
theorem create_context_eq (root : RootIdentity) (t m : Nat) (rk : Pubkey)
    (now : Int) (b : Nat) :
    create_context root t m rk now b =
      if ¬ (t ≤ 5) then .error (.program .InvalidContextType)
      else if root.context_count + 1 < U16_MOD then
        .ok ({ root_identity := rk, root_identity_hash := none,
               encryption_commitment := none, context_type := t,
               created_at := now, max_per_transaction := m, total_spent := 0,
               revoked := false, context_index := root.context_count, bump := b },
             { root with context_count := root.context_count + 1 })
      else .error .abort := by
  by_cases ht : t ≤ 5 <;> by_cases hc : root.context_count + 1 < U16_MOD <;>
    simp [create_context, checked_add_u16, ht, hc]

/-- Closed form of the `create_context_encrypted` handler. -/
theorem create_context_encrypted_eq (root : RootIdentity) (t m : Nat)
    (hsh cm : Bytes32) (rk : Pubkey) (now : Int) (b : Nat) :
    create_context_encrypted root t m hsh cm rk now b =
      if ¬ (t ≤ 5) then .error (.program .InvalidContextType)
      else if ¬ (hash_root_identity rk = hsh) then
        .error (.program .InvalidRootHash)
      else if root.context_count + 1 < U16_MOD then
        .ok ({ root_identity := Pubkey.default, root_identity_hash := some hsh,
               encryption_commitment := some cm, context_type := t,
               created_at := now, max_per_transaction := m, total_spent := 0,
               revoked := false, context_index := root.context_count, bump := b },
             { root with context_count := root.context_count + 1 })
      else .error .abort := by
  by_cases ht : t ≤ 5 <;> by_cases hh : hash_root_identity rk = hsh <;>
    by_cases hc : root.context_count + 1 < U16_MOD <;>
    simp [create_context_encrypted, checked_add_u16, ht, hh, hc]

/-- A successful creation call, plain or encrypted, assigns the root's
current counter as the context index and increments the counter by one. -/
theorem create_dispatch_ok (root : RootIdentity) (a : CreateArgs) (rk : Pubkey)
    (now : Int) (b : Nat) (ctx : ContextIdentity) (root1 : RootIdentity) :
    create_dispatch root a rk now b = Except.ok (ctx, root1) →
    ctx.context_index = root.context_count ∧
      root1.context_count = root.context_count + 1 := by
  intro h
  cases a with
  | plain t m =>
    rw [create_dispatch, create_context_eq] at h
    by_cases ht : t ≤ 5 <;> by_cases hc : root.context_count + 1 < U16_MOD <;>
      simp [ht, hc] at h
    obtain ⟨h1, h2⟩ := h
    subst h1
    subst h2
    simp
  | encrypted t m hs cm =>
    rw [create_dispatch, create_context_encrypted_eq] at h
    by_cases ht : t ≤ 5 <;> by_cases hh : hash_root_identity rk = hs <;>
      by_cases hc : root.context_count + 1 < U16_MOD <;>
      simp [ht, hh, hc] at h
    obtain ⟨h1, h2⟩ := h
    subst h1
    subst h2
    simp

/-- A run of successful creation calls starting at counter `c` assigns the
indices `c, c+1, …` in call order and leaves the counter advanced by the
number of calls. -/
theorem runCreates_spec (ops : List (CreateArgs × Int × Nat))
    (root : RootIdentity) (rk : Pubkey) (idxs : List Nat) (rfin : RootIdentity) :
    runCreates root rk ops = some (idxs, rfin) →
    idxs = List.range' root.context_count ops.length ∧
      rfin.context_count = root.context_count + ops.length := by
  induction ops generalizing root idxs with
  | nil =>
    intro h
    simp [runCreates] at h
    obtain ⟨h1, h2⟩ := h
    subst h1
    subst h2
    simp [List.range']
  | cons p rest ih =>
    obtain ⟨a, now, b⟩ := p
    intro h
    simp only [runCreates] at h
    cases hd : create_dispatch root a rk now b with
    | error e => rw [hd] at h; simp at h
    | ok pr =>
      obtain ⟨ctx, root1⟩ := pr
      simp only [hd] at h
      cases hrest : runCreates root1 rk rest with
      | none => simp only [hrest] at h; exact absurd h (by simp)
      | some q =>
        obtain ⟨idxs1, rfin1⟩ := q
        simp only [hrest] at h
        simp at h
        obtain ⟨h1, h2⟩ := h
        obtain ⟨hidx, hcnt⟩ := create_dispatch_ok root a rk now b ctx root1 hd
        subst h2
        obtain ⟨ih1, ih2⟩ := ih root1 idxs1 hrest
        subst h1
        constructor
        · rw [ih1, hidx, hcnt, List.length_cons, List.range'_succ]
        · rw [ih2, hcnt, List.length_cons]
          omega

/-- Every operation on a revoked context leaves it revoked. -/
theorem applyContextOp_revoked (ctx : ContextIdentity) (op : ContextOp)
    (h : ctx.revoked = true) : (applyContextOp ctx op).revoked = true := by
  cases op <;> simp [applyContextOp, commit, revoke_context, record_spending, h]

/-- Every sequence of operations on a revoked context leaves it revoked. -/
theorem runContextOps_revoked (ops : List ContextOp) (ctx : ContextIdentity)
    (h : ctx.revoked = true) : (runContextOps ctx ops).revoked = true := by
  induction ops generalizing ctx with
  | nil => simpa [runContextOps]
  | cons op rest ih =>
    simp only [runContextOps]
    exact ih _ (applyContextOp_revoked ctx op h)

/-- C1: for every context and every amount, `record_spending amount` succeeds
if and only if the context is not revoked, the amount is at most
`max_per_transaction`, and `total_spent + amount` fits in 64 bits; on success
`total_spent` increases by exactly the amount, and on any failure the
committed `total_spent` is unchanged. -/
theorem record_spending_spec (ctx : ContextIdentity) (amount : Nat) :
    ((∃ c, record_spending ctx amount = Except.ok c) ↔
      (ctx.revoked = false ∧ amount ≤ ctx.max_per_transaction ∧
        ctx.total_spent + amount < U64_MOD))
    ∧ (∀ c, record_spending ctx amount = Except.ok c →
        c.total_spent = ctx.total_spent + amount)
    ∧ (∀ e, record_spending ctx amount = Except.error e →
        (commit ctx (record_spending ctx amount)).total_spent = ctx.total_spent) := by
  by_cases h1 : ctx.revoked <;>
    by_cases h2 : amount ≤ ctx.max_per_transaction <;>
    by_cases h3 : ctx.total_spent + amount < U64_MOD <;>
    simp [record_spending_eq, commit, h1, h2, h3]

/-- Witness for C1 at the sample context and amount 5. -/
theorem record_spending_spec_witness :
    ({ exampleCtx with total_spent := 5 } : ContextIdentity).total_spent =
      exampleCtx.total_spent + 5 :=
  (record_spending_spec exampleCtx 5).2.1 { exampleCtx with total_spent := 5 } (by rfl)

/-- C6: `verify_commitment` is read-only and returns `Ok true` exactly when a
commitment is stored, the supplied commitment equals it, and the binding key
equals the context's own address; with no stored commitment it returns
`Ok false`, and it never returns an error. -/
theorem verify_commitment_spec (ctx : ContextIdentity) (ckey : Pubkey)
    (c : Bytes32) (bk : Pubkey) :
    (verify_commitment ctx ckey c bk = Except.ok true ↔
      (ctx.encryption_commitment = some c ∧ bk = ckey))
    ∧ (ctx.encryption_commitment = none →
        verify_commitment ctx ckey c bk = Except.ok false)
    ∧ (∃ b, verify_commitment ctx ckey c bk = Except.ok b) := by
  rcases h : ctx.encryption_commitment with _ | stored <;>
    simp [verify_commitment, h]

/-- Witness for C6 at the sample encrypted context. -/
theorem verify_commitment_spec_witness :
    verify_commitment demoEncCtx demoCtxKey 7 demoCtxKey = Except.ok true :=
  (verify_commitment_spec demoEncCtx demoCtxKey 7 demoCtxKey).1.mpr ⟨rfl, rfl⟩

/-- C7: the spending-limit check is per-transaction only: on a context with
limit 1000, recording 600 and then 500 both succeed, ending with
`total_spent = 1100`, which exceeds `max_per_transaction`. -/
theorem per_transaction_limit_scenario :
    record_spending exampleCtx 600 = Except.ok { exampleCtx with total_spent := 600 }
    ∧ record_spending { exampleCtx with total_spent := 600 } 500 =
        Except.ok { exampleCtx with total_spent := 1100 }
    ∧ exampleCtx.max_per_transaction < 1100 := by
  refine ⟨by rfl, by rfl, by norm_num [exampleCtx]⟩

/-- C10: `verify_commitment` ignores the `revoked` flag: a successful
revocation never changes its result, and on a revoked context with a stored
commitment it still returns true when the commitment and binding key match. -/
theorem verify_ignores_revocation (ctx ctx2 : ContextIdentity) (ckey : Pubkey)
    (c : Bytes32) (bk : Pubkey) :
    revoke_context ctx = Except.ok ctx2 →
    (verify_commitment ctx2 ckey c bk = verify_commitment ctx ckey c bk
      ∧ (ctx.encryption_commitment = some c → bk = ckey →
          verify_commitment ctx2 ckey c bk = Except.ok true)) := by
  intro h
  by_cases h1 : ctx.revoked
  · simp [revoke_context, h1] at h
  · simp [revoke_context, h1] at h
    subst h
    constructor
    · simp [verify_commitment]
    · intro hc hb
      simp [verify_commitment, hc, hb]

/-- Witness for C10 at the sample encrypted context. -/
theorem verify_ignores_revocation_witness :
    verify_commitment { demoEncCtx with revoked := true } demoCtxKey 7 demoCtxKey =
      Except.ok true :=
  ((verify_ignores_revocation demoEncCtx { demoEncCtx with revoked := true }
      demoCtxKey 7 demoCtxKey) (by rfl)).2 rfl rfl

/-- C2: revocation is terminal: once `revoke_context` succeeds, after any
further sequence of context operations the record stays revoked,
`check_spending_limit` and `record_spending` fail with `ContextRevoked`, and
a second `revoke_context` fails with `ContextAlreadyRevoked`; no operation
sets `revoked` back to false. -/
theorem revocation_terminal (ctx ctx1 : ContextIdentity) (ops : List ContextOp)
    (amount : Nat) :
    revoke_context ctx = Except.ok ctx1 →
    ((runContextOps ctx1 ops).revoked = true
      ∧ check_spending_limit (runContextOps ctx1 ops) amount =
          Except.error (TxError.program PrismError.ContextRevoked)
      ∧ record_spending (runContextOps ctx1 ops) amount =
          Except.error (TxError.program PrismError.ContextRevoked)
      ∧ revoke_context (runContextOps ctx1 ops) =
          Except.error (TxError.program PrismError.ContextAlreadyRevoked)) := by
  intro h
  by_cases h1 : ctx.revoked
  · simp [revoke_context, h1] at h
  · simp [revoke_context, h1] at h
    subst h
    have hr : (runContextOps { ctx with revoked := true } ops).revoked = true :=
      runContextOps_revoked ops _ rfl
    exact ⟨hr, by simp [check_spending_limit, hr],
      by simp [record_spending, hr], by simp [revoke_context, hr]⟩

/-- Witness for C2: revoke the sample context, run two more operations, then
attempt another spend. -/
theorem revocation_terminal_witness :
    record_spending
        (runContextOps { exampleCtx with revoked := true }
          [ContextOp.record 5, ContextOp.revoke]) 1 =
      Except.error (TxError.program PrismError.ContextRevoked) :=
  ((revocation_terminal exampleCtx { exampleCtx with revoked := true }
      [ContextOp.record 5, ContextOp.revoke] 1) (by rfl)).2.2.1

/-- Counterexample for C3: with the counter at 65535 and otherwise valid
inputs, `create_context` fails with the abort modelling the Rust
`checked_add(1).unwrap()` panic, which is not a named program error. -/
theorem context_count_overflow_counterexample :
    create_context rootAtMax 0 1000 demoRootKey 0 255 = Except.error TxError.abort
    ∧ TxError.abort.isNamedError = false :=
  ⟨by rfl, rfl⟩

/-- C3 (amended): when a root's `context_count` is 65535, a further
`create_context` or `create_context_encrypted` call aborts through the
`checked_add(1).unwrap()` panic — committing nothing — rather than
returning a named counter-overflow program error. -/
theorem context_count_overflow_aborts (root : RootIdentity) (t m : Nat)
    (hsh cm : Bytes32) (rk : Pubkey) (now : Int) (b : Nat) :
    root.context_count = 65535 → t ≤ 5 →
    (create_context root t m rk now b = Except.error TxError.abort
      ∧ (hash_root_identity rk = hsh →
          create_context_encrypted root t m hsh cm rk now b =
            Except.error TxError.abort)
      ∧ TxError.abort.isNamedError = false) := by
  intro hc ht
  have hov : checked_add_u16 65535 1 = none := by
    norm_num [checked_add_u16, U16_MOD]
  refine ⟨?_, ?_, rfl⟩
  · simp [create_context, ht, hc, hov]
  · intro hh
    simp [create_context_encrypted, ht, hh, hc, hov]

/-- Witness for the amended C3 on the encrypted path at the saturated root. -/
theorem context_count_overflow_aborts_witness :
    create_context_encrypted rootAtMax 0 1000 (hash_root_identity demoRootKey) 7
        demoRootKey 0 255 = Except.error TxError.abort :=
  ((context_count_overflow_aborts rootAtMax 0 1000 (hash_root_identity demoRootKey)
      7 demoRootKey 0 255) rfl (by norm_num)).2.1 rfl

/-- Counterexample for C5: with a valid context type and a matching hash but
the counter at 65535, `create_context_encrypted` does not succeed — it aborts
on the counter increment — so success is not equivalent to the hash check. -/
theorem create_encrypted_iff_counterexample :
    hash_root_identity demoRootKey = hash_root_identity demoRootKey
    ∧ create_context_encrypted rootAtMax 0 1000 (hash_root_identity demoRootKey) 9
        demoRootKey 0 255 = Except.error TxError.abort :=
  ⟨rfl, by rfl⟩

/-- C5 (amended): given a valid context type and a root whose counter is
below 65535, `create_context_encrypted` succeeds iff the supplied
`root_identity_hash` equals the deterministic hash of the root's own address;
on a mismatch it fails with `InvalidRootHash`, committing nothing; on success
the record stores the zero-pubkey sentinel linkage, the hash and the
commitment, and the root's counter increases by one. -/
theorem create_encrypted_spec (root : RootIdentity) (t m : Nat)
    (hsh cm : Bytes32) (rk : Pubkey) (now : Int) (b : Nat) :
    t ≤ 5 → root.context_count < 65535 →
    (((∃ out, create_context_encrypted root t m hsh cm rk now b = Except.ok out) ↔
        hash_root_identity rk = hsh)
      ∧ (¬ hash_root_identity rk = hsh →
          create_context_encrypted root t m hsh cm rk now b =
            Except.error (TxError.program PrismError.InvalidRootHash))
      ∧ (∀ ctx2 root2,
          create_context_encrypted root t m hsh cm rk now b =
              Except.ok (ctx2, root2) →
          ctx2.root_identity = Pubkey.default ∧
            ctx2.root_identity_hash = some hsh ∧
            ctx2.encryption_commitment = some cm ∧
            ctx2.total_spent = 0 ∧ ctx2.revoked = false ∧
            root2.context_count = root.context_count + 1)) := by
  intro ht hcnt
  have hov : checked_add_u16 root.context_count 1 = some (root.context_count + 1) := by
    simp only [checked_add_u16, U16_MOD]
    rw [if_pos (by omega)]
  by_cases hh : hash_root_identity rk = hsh <;>
    simp [create_context_encrypted, ht, hh, hov]

/-- Witness for the amended C5: creation succeeds on the sample root with a
matching hash. -/
theorem create_encrypted_spec_witness :
    ∃ out, create_context_encrypted demoRoot 0 1000 (hash_root_identity demoRootKey)
        7 demoRootKey 0 255 = Except.ok out :=
  ((create_encrypted_spec demoRoot 0 1000 (hash_root_identity demoRootKey) 7
      demoRootKey 0 255) (by norm_num) (by decide)).1.mpr rfl

/-- Counterexample for C4: an encrypted-linkage context of the sample root,
not revoked, presented by the authenticated owner with the root account:
`revoke_context_instr` fails with `ContextMismatch` instead of succeeding,
because the stored linkage is the zero sentinel, not the root's address. -/
theorem revoke_encrypted_counterexample :
    demoRoot.owner = demoUser
    ∧ demoEncCtx.revoked = false
    ∧ revoke_context_instr demoUser ⟨demoRootKey, demoRoot⟩ ⟨demoCtxKey, demoEncCtx⟩ =
        Except.error (TxError.program PrismError.ContextMismatch) :=
  ⟨rfl, rfl, by rfl⟩

/-- C4 (amended): with accounts matching the PDA derivation,
`revoke_context_instr` succeeds iff the caller is the root's owner, the
context's stored `root_identity` equals the presented root's address (true
for plain-linkage contexts, never for encrypted ones, whose stored linkage is
the zero sentinel), and the context is not already revoked; on success the
context's `revoked` flag is set to true. -/
theorem revoke_instr_spec (u : Pubkey) (racct : Account RootIdentity)
    (cacct : Account ContextIdentity) :
    racct.key = derive_root_address u →
    cacct.key = derive_context_address racct.key cacct.data.context_index →
    (((∃ c, revoke_context_instr u racct cacct = Except.ok c) ↔
        (racct.data.owner = u ∧ cacct.data.root_identity = racct.key ∧
          cacct.data.revoked = false))
      ∧ (∀ c, revoke_context_instr u racct cacct = Except.ok c →
          c.revoked = true)) := by
  intro hs1 hs2
  rw [hs1]
  by_cases ho : racct.data.owner = u <;>
    by_cases hl : cacct.data.root_identity = derive_root_address u <;>
    by_cases hr : cacct.data.revoked <;>
    simp [revoke_context_instr, revoke_context, hs1, hs2, ho, hl, hr]

/-- Witness for the amended C4: revoking a plain-linkage context of the
sample root succeeds. -/
theorem revoke_instr_spec_witness :
    ∃ c, revoke_context_instr demoUser ⟨demoRootKey, demoRoot⟩
        ⟨demoCtxKey, exampleCtx⟩ = Except.ok c :=
  ((revoke_instr_spec demoUser ⟨demoRootKey, demoRoot⟩ ⟨demoCtxKey, exampleCtx⟩)
      rfl (by rfl)).1.mpr ⟨rfl, by rfl, rfl⟩

/-- C9: against an encrypted-linkage context (stored `root_identity` is the
zero sentinel), `record_spending_instr` fails with `ContextMismatch` for
every authenticated caller and every amount, because the account constraint
requires the stored linkage to equal the presented root's address, which a
derived root address (never the zero key) cannot be. -/
theorem encrypted_record_spending_mismatch (u : Pubkey)
    (racct : Account RootIdentity) (cacct : Account ContextIdentity)
    (amount : Nat) :
    racct.key = derive_root_address u →
    cacct.key = derive_context_address racct.key cacct.data.context_index →
    racct.data.owner = u →
    cacct.data.root_identity = Pubkey.default →
    record_spending_instr u racct cacct amount =
      Except.error (TxError.program PrismError.ContextMismatch) := by
  intro hs1 hs2 ho henc
  have hne : ¬ (cacct.data.root_identity = derive_root_address u) := by
    rw [henc]
    simp only [Pubkey.default, derive_root_address, Pubkey.mk.injEq]
    omega
  simp [record_spending_instr, hs1, hs2, ho, hne]

/-- Witness for C9 at the sample encrypted context and amount 3. -/
theorem encrypted_record_spending_mismatch_witness :
    record_spending_instr demoUser ⟨demoRootKey, demoRoot⟩ ⟨demoCtxKey, demoEncCtx⟩ 3 =
      Except.error (TxError.program PrismError.ContextMismatch) :=
  (encrypted_record_spending_mismatch demoUser ⟨demoRootKey, demoRoot⟩
      ⟨demoCtxKey, demoEncCtx⟩ 3) rfl (by rfl) rfl rfl

/-- C8: for every sequence of successful context creations under one root
starting from a fresh counter, the assigned `context_index` values are
exactly `0, 1, 2, …` in call order and the final `context_count` equals the
number of successful creations. -/
theorem create_sequence_spec (ops : List (CreateArgs × Int × Nat))
    (root : RootIdentity) (rk : Pubkey) (idxs : List Nat) (rfin : RootIdentity) :
    root.context_count = 0 →
    runCreates root rk ops = some (idxs, rfin) →
    (idxs = List.range ops.length ∧ rfin.context_count = ops.length) := by
  intro h0 h
  obtain ⟨h1, h2⟩ := runCreates_spec ops root rk idxs rfin h
  rw [h0] at h1 h2
  constructor
  · rw [h1, List.range_eq_range']
  · omega

/-- Witness for C8 on a run of two creations from the fresh sample root. -/
theorem create_sequence_spec_witness :
    ([0, 1] : List Nat) = List.range demoOps.length ∧
      ({ freshRoot with context_count := 2 } : RootIdentity).context_count =
        demoOps.length :=
  create_sequence_spec demoOps freshRoot demoRootKey [0, 1]
    { freshRoot with context_count := 2 } rfl (by rfl)

end Prism
